import Mathlib

/-!
# Verification of the pos-pal bill composition and totals engine

Shallow embedding of the core of the `pos-pal` restaurant point-of-sale
application: the cart aggregate (`addToCart`, `updateQuantity`,
`removeFromCart`), the totals calculator (`calculateTotals`), the bill
sequencer (`getLastBillNumber`), bill persistence (`createBill`,
`updateBill`, `getBill`) and the report aggregation reducers
(`totalSales`, `totalItems`, `avgBillValue`), together with the bill
finalization flow (`handleSaveBill`).

Modelling conventions:
* JavaScript numbers are modelled as exact rationals (`ℚ`); the engine
  only adds and multiplies small decimal values, and every claim is an
  exact arithmetic identity.  Quantities and the `delta` argument of
  `updateQuantity` are integers (`ℤ`), matching their integral use.
* JavaScript strings are sequences of characters; character-level work
  (bill-number parsing) is done on `List Char` obtained via
  `String.data`.
* `parseInt` returning `NaN` is modelled as `Option.none`; the JS
  arithmetic that propagates the `NaN` into the result string is spelled
  out at the use site.
* IndexedDB object stores are modelled as lists in insertion order
  (`getAll` returns records in insertion order for out-of-line iteration
  of a store keyed by `id`; the sequencer depends on that order).
-/

namespace PosPal

/-! ## JavaScript string and number primitives -/

/-- Numeric value of a (non-empty, all-digit) decimal digit string, as
accumulated by `parseInt` over its maximal leading digit run. -/
def digitsVal (s : List Char) : ℕ :=
  s.foldl (fun acc c => 10 * acc + (c.toNat - 48)) 0

/-- The maximal leading digit run of `cs`, as a number; `none` when `cs`
does not start with a digit (the `NaN` case of `parseInt`). -/
def parseDigitRun (cs : List Char) : Option ℕ :=
  let ds := cs.takeWhile (fun c => c.isDigit)
  if ds.isEmpty then none else some (digitsVal ds)

/-- JavaScript `parseInt(s)` (radix 10): skip leading spaces, optional
sign, then the maximal leading digit run; `none` models `NaN`. -/
def jsParseInt (s : List Char) : Option ℤ :=
  match s.dropWhile (fun c => c = ' ') with
  | [] => none
  | c :: cs =>
    if c = '-' then (parseDigitRun cs).map (fun n => -(n : ℤ))
    else if c = '+' then (parseDigitRun cs).map (fun n => (n : ℤ))
    else (parseDigitRun (c :: cs)).map (fun n => (n : ℤ))

/-- JavaScript `String(n)` for an integral number: decimal digits with a
leading minus sign for negative values. -/
def intToChars (n : ℤ) : List Char :=
  if n < 0 then '-' :: Nat.toDigits 10 (-n).toNat else Nat.toDigits 10 n.toNat

/-- JavaScript `s.padStart(n, c)`: pad on the left with `c` up to length
`n` (no-op when `s` is already long enough). -/
def padStart (n : ℕ) (c : Char) (s : List Char) : List Char :=
  if n ≤ s.length then s else List.replicate (n - s.length) c ++ s

/-- JavaScript `s.replace(pat, '')` for a plain-string pattern: remove
the first (leftmost) occurrence of `pat`, if any. -/
def jsReplaceFirst (pat : List Char) : List Char → List Char
  | [] => []
  | c :: cs =>
    if pat.isPrefixOf (c :: cs) then (c :: cs).drop pat.length
    else c :: jsReplaceFirst pat cs

/-! ## Data model (`@/types`) -/

/-- A catalog entry (`MenuItem` in `@/types`). -/
structure MenuItem where
  id : String
  name : String
  price : ℚ
  category : String
  description : Option String
  isAvailable : Bool
  createdAt : String
  updatedAt : String
  deriving Repr, DecidableEq

/-- One cart / bill line (`BillItem` in `@/types`): a menu-item reference
with a captured name/price snapshot, a quantity and a line subtotal. -/
structure BillItem where
  menuItemId : String
  name : String
  price : ℚ
  quantity : ℤ
  subtotal : ℚ
  deriving Repr, DecidableEq

/-- Payment method tag: the closed set `'cash' | 'card' | 'upi'`. -/
inductive PaymentMethod where
  | cash
  | card
  | upi
  deriving Repr, DecidableEq

/-- A finalized bill record (`Bill` in `@/types`). -/
structure Bill where
  id : String
  billNumber : String
  items : List BillItem
  subtotal : ℚ
  cgst : ℚ
  sgst : ℚ
  total : ℚ
  createdBy : String
  createdByName : String
  createdAt : String
  paymentMethod : Option PaymentMethod
  customerName : Option String
  customerPhone : Option String
  syncedToCloud : Bool
  deriving Repr, DecidableEq

/-- The fields of the session user that bill finalization reads
(`getCurrentUser()` supplies `id` and `name`). -/
structure User where
  id : String
  name : String
  deriving Repr, DecidableEq

/-- Printer paper width: the closed set `'58mm' | '80mm'`. -/
inductive PrinterFormat where
  | mm58
  | mm80
  deriving Repr, DecidableEq

/-- Application settings (`AppSettings` in `@/types`), a singleton
record; the totals calculator reads `cgstRate` / `sgstRate`. -/
structure AppSettings where
  shopName : String
  shopAddress : String
  shopGST : Option String
  shopPhone : Option String
  cgstRate : ℚ
  sgstRate : ℚ
  printerFormat : PrinterFormat
  theme : String
  autoSync : Bool
  currency : String
  deriving Repr, DecidableEq

/-! ## Cart aggregate (Billing page) -/

/-- `addToCart(item)`: if a line for `item.id` exists, bump its quantity
and recompute its subtotal at the captured price; otherwise append a new
line with quantity 1 and subtotal `item.price`. -/
def addToCart (cart : List BillItem) (item : MenuItem) : List BillItem :=
  if (cart.find? (fun cartItem => cartItem.menuItemId = item.id)).isSome then
    cart.map (fun cartItem =>
      if cartItem.menuItemId = item.id then
        { cartItem with
          quantity := cartItem.quantity + 1
          subtotal := (cartItem.quantity + 1) * cartItem.price }
      else cartItem)
  else
    cart ++ [{ menuItemId := item.id, name := item.name, price := item.price,
               quantity := 1, subtotal := item.price }]

/-- `updateQuantity(menuItemId, delta)`: on the matching line, add
`delta` to the quantity; a resulting quantity ≤ 0 leaves the line
unchanged, otherwise the quantity and subtotal are updated. -/
def updateQuantity (cart : List BillItem) (menuItemId : String) (delta : ℤ) :
    List BillItem :=
  cart.map (fun item =>
    if item.menuItemId = menuItemId then
      let newQuantity := item.quantity + delta
      if newQuantity ≤ 0 then item
      else { item with quantity := newQuantity, subtotal := newQuantity * item.price }
    else item)

/-- `removeFromCart(menuItemId)`: drop every line for that menu item. -/
def removeFromCart (cart : List BillItem) (menuItemId : String) : List BillItem :=
  cart.filter (fun item => item.menuItemId ≠ menuItemId)

/-- One user-level cart mutation, for stating properties over arbitrary
operation sequences. -/
inductive CartOp where
  | add (item : MenuItem)
  | change (menuItemId : String) (delta : ℤ)
  | remove (menuItemId : String)
  deriving Repr, DecidableEq

/-- Apply one cart mutation. -/
def applyCartOp (cart : List BillItem) : CartOp → List BillItem
  | .add item => addToCart cart item
  | .change menuItemId delta => updateQuantity cart menuItemId delta
  | .remove menuItemId => removeFromCart cart menuItemId

/-- Run a sequence of cart mutations from a starting cart. -/
def runCartOps (cart : List BillItem) (ops : List CartOp) : List BillItem :=
  ops.foldl applyCartOp cart

/-! ## Totals calculator -/

/-- Result of `calculateTotals`. -/
structure Totals where
  subtotal : ℚ
  cgst : ℚ
  sgst : ℚ
  total : ℚ
  deriving Repr, DecidableEq

/-- JS `settings?.cgstRate || 2.5`: the fallback fires when `settings`
is null *and also* when the stored rate is the falsy number 0. -/
def effCgstRate (settings : Option AppSettings) : ℚ :=
  match settings with
  | none => 2.5
  | some s => if s.cgstRate = 0 then 2.5 else s.cgstRate

/-- JS `settings?.sgstRate || 2.5` (see `effCgstRate`). -/
def effSgstRate (settings : Option AppSettings) : ℚ :=
  match settings with
  | none => 2.5
  | some s => if s.sgstRate = 0 then 2.5 else s.sgstRate

/-- `calculateTotals()`: subtotal is the `reduce` of line subtotals, the
two taxes are percentage shares of it, total is their sum. -/
def calculateTotals (cart : List BillItem) (settings : Option AppSettings) :
    Totals :=
  let subtotal := cart.foldl (fun sum item => sum + item.subtotal) 0
  let cgst := subtotal * effCgstRate settings / 100
  let sgst := subtotal * effSgstRate settings / 100
  let total := subtotal + cgst + sgst
  { subtotal := subtotal, cgst := cgst, sgst := sgst, total := total }

/-! ## Persistent store: bill operations (`@/lib/db`)

The `bills` object store is keyed by `id`; `getAll` yields records in
insertion order.  It is modelled as a list in insertion order. -/

/-- `createBill(bill)`: IndexedDB `add` — fails (rejects with a
`ConstraintError`, modelled as `none`) when the key already exists,
otherwise appends the record. -/
def createBill (bills : List Bill) (bill : Bill) : Option (List Bill) :=
  if bills.any (fun b => b.id = bill.id) then none else some (bills ++ [bill])

/-- `updateBill(bill)`: IndexedDB `put` — replace the record with the
same key if present, otherwise insert. -/
def updateBill (bills : List Bill) (bill : Bill) : List Bill :=
  if bills.any (fun b => b.id = bill.id) then
    bills.map (fun b => if b.id = bill.id then bill else b)
  else bills ++ [bill]

/-- `getBill(id)`: IndexedDB `get` by primary key. -/
def getBill (bills : List Bill) (id : String) : Option Bill :=
  bills.find? (fun b => b.id = id)

/-- `getLastBillNumber()`: the bill-number sequencer.  On an empty store
it returns the literal `'BILL0000'`; otherwise it takes the last record
in insertion order, strips the first occurrence of `'BILL'` from its
bill number, `parseInt`s the remainder, adds 1 and zero-pads to 4
digits.  When `parseInt` yields `NaN`, the JS code computes
`String(NaN + 1).padStart(4, '0')` which is `'0NaN'`, so the result is
the string `'BILL0NaN'`. -/
def getLastBillNumber (bills : List Bill) : String :=
  if h : bills = [] then "BILL0000"
  else
    let lastBill := bills.getLast h
    match jsParseInt (jsReplaceFirst "BILL".data lastBill.billNumber.data) with
    | some lastNumber => ⟨"BILL".data ++ padStart 4 '0' (intToChars (lastNumber + 1))⟩
    | none => ⟨"BILL".data ++ padStart 4 '0' "NaN".data⟩

/-! ## Bill finalization (`handleSaveBill` on the Billing page) -/

/-- Outcome of `handleSaveBill`: the two early-return error paths, a
successful save, and the rejection of `createBill` on a duplicate key
(caught by the surrounding `try`/`catch`). -/
inductive SaveOutcome where
  | emptyCart
  | missingContext
  | saved (bill : Bill)
  | saveFailed
  deriving Repr, DecidableEq

/-- The `Bill` record constructed inside `handleSaveBill` once both
preconditions hold: bill number from the sequencer, monetary figures
from `calculateTotals`, creator snapshot from the session user,
empty-string customer fields mapped to absent, sync flag false.
`nowId` and `nowIso` stand for `` `bill-${Date.now()}` `` and
`new Date().toISOString()`. -/
def mkSavedBill (bills : List Bill) (cart : List BillItem) (u : User)
    (st : AppSettings) (paymentMethod : PaymentMethod)
    (customerName customerPhone : String) (nowId nowIso : String) : Bill :=
  { id := nowId
    billNumber := getLastBillNumber bills
    items := cart
    subtotal := (calculateTotals cart (some st)).subtotal
    cgst := (calculateTotals cart (some st)).cgst
    sgst := (calculateTotals cart (some st)).sgst
    total := (calculateTotals cart (some st)).total
    createdBy := u.id
    createdByName := u.name
    createdAt := nowIso
    paymentMethod := some paymentMethod
    customerName := if customerName = "" then none else some customerName
    customerPhone := if customerPhone = "" then none else some customerPhone
    syncedToCloud := false }

/-- `handleSaveBill()`: rejects an empty cart, then a missing user or
settings; otherwise constructs the `Bill` record (see `mkSavedBill`) and
hands it to `createBill`.  Returns the outcome together with the
resulting bill store. -/
def handleSaveBill (bills : List Bill) (cart : List BillItem)
    (user : Option User) (settings : Option AppSettings)
    (paymentMethod : PaymentMethod) (customerName customerPhone : String)
    (nowId nowIso : String) : SaveOutcome × List Bill :=
  if cart = [] then (.emptyCart, bills)
  else
    match user, settings with
    | some u, some st =>
      match createBill bills
          (mkSavedBill bills cart u st paymentMethod customerName customerPhone
            nowId nowIso) with
      | some bills2 =>
        (.saved (mkSavedBill bills cart u st paymentMethod customerName
          customerPhone nowId nowIso), bills2)
      | none => (.saveFailed, bills)
    | _, _ => (.missingContext, bills)

/-! ## Report aggregation (Reports page) -/

/-- `totalSales`: `filteredBills.reduce((sum, bill) => sum + bill.total, 0)`. -/
def totalSales (filteredBills : List Bill) : ℚ :=
  filteredBills.foldl (fun sum bill => sum + bill.total) 0

/-- `totalItems`: `filteredBills.reduce((sum, bill) => sum + bill.items.length, 0)`
— counts line entries per bill, not summed quantities. -/
def totalItems (filteredBills : List Bill) : ℕ :=
  filteredBills.foldl (fun sum bill => sum + bill.items.length) 0

/-- `avgBillValue`: `length > 0 ? totalSales / length : 0`. -/
def avgBillValue (filteredBills : List Bill) : ℚ :=
  if 0 < filteredBills.length then totalSales filteredBills / filteredBills.length
  else 0

/-! ## Sample records (used by witnesses and counterexamples) -/

/-- A concrete bill record carrying a given bill number; the other
fields are immaterial to the sequencer. -/
def sampleBillNumbered (bn : String) : Bill :=
  { id := "bill-1700000000000", billNumber := bn, items := [], subtotal := 0,
    cgst := 0, sgst := 0, total := 0, createdBy := "user-1",
    createdByName := "Admin User", createdAt := "2024-03-15T10:00:00.000Z",
    paymentMethod := some .cash, customerName := none, customerPhone := none,
    syncedToCloud := false }

/-- The default admin session user from `initializeDefaultData`. -/
def sampleUser : User := { id := "user-1", name := "Admin User" }

/-- The default settings from `initializeDefaultData` (rates 2.5/2.5). -/
def sampleSettings : AppSettings :=
  { shopName := "My Restaurant", shopAddress := "123 Main Street, City",
    shopGST := some "GSTIN123456789", shopPhone := none, cgstRate := 2.5,
    sgstRate := 2.5, printerFormat := .mm80, theme := "dark",
    autoSync := false, currency := "₹" }

/-- Settings whose first tax rate has been configured to 0. -/
def zeroRateSettings : AppSettings := { sampleSettings with cgstRate := 0 }

/-- A cart line whose subtotal is 1000.00. -/
def line1000 : BillItem :=
  { menuItemId := "menu-1", name := "Veg Manchurian", price := 1000,
    quantity := 1, subtotal := 1000 }

/-- A menu item (from the seeded catalog). -/
def sampleMenuItem : MenuItem :=
  { id := "menu-5", name := "Fresh Lime Soda", price := 60,
    category := "Beverages", description := some "Refreshing lime drink",
    isAvailable := true, createdAt := "2024-03-15T10:00:00.000Z",
    updatedAt := "2024-03-15T10:00:00.000Z" }

/-- The cart line produced by adding `sampleMenuItem` to an empty cart. -/
def sampleCartLine : BillItem :=
  { menuItemId := "menu-5", name := "Fresh Lime Soda", price := 60,
    quantity := 1, subtotal := 60 }

/-- A cart line with quantity 2 (for the decrement-rejection witness). -/
def sampleCartLine2 : BillItem :=
  { menuItemId := "menu-5", name := "Fresh Lime Soda", price := 60,
    quantity := 2, subtotal := 120 }

/-- The invariant of claim C2: every cart line has a positive quantity
and a subtotal equal to quantity times its captured unit price. -/
def cartInv (cart : List BillItem) : Prop :=
  ∀ l ∈ cart, 1 ≤ l.quantity ∧ l.subtotal = (l.quantity : ℚ) * l.price

/-- The bill produced by a successful save of a single 1000.00 line on
an empty store with the default settings and user. -/
def savedDemoBill : Bill :=
  { id := "bill-1", billNumber := "BILL0000", items := [line1000],
    subtotal := 1000, cgst := 25, sgst := 25, total := 1050,
    createdBy := "user-1", createdByName := "Admin User",
    createdAt := "2024-03-15T10:00:00.000Z", paymentMethod := some .cash,
    customerName := none, customerPhone := none, syncedToCloud := false }

/-- A persisted bill with monetary fields (subtotal 100, total 110). -/
def storedBillA : Bill :=
  { id := "bill-42", billNumber := "BILL0001", items := [], subtotal := 100,
    cgst := 5, sgst := 5, total := 110, createdBy := "user-1",
    createdByName := "Admin User", createdAt := "2024-03-15T10:00:00.000Z",
    paymentMethod := some .card, customerName := none, customerPhone := none,
    syncedToCloud := false }

/-- A record under the same key as `storedBillA` but with a different
`total`, as a caller may hand to `updateBill`. -/
def storedBillB : Bill := { storedBillA with total := 999, syncedToCloud := true }

end PosPal

namespace PosPal

/-! ## Helper lemmas -/

/-- A list is a `isPrefixOf` of itself followed by anything. -/
theorem isPrefixOf_append_self (l₁ l₂ : List Char) : l₁.isPrefixOf (l₁ ++ l₂) = true := by
  induction l₁ with
  | nil => simp [List.isPrefixOf]
  | cons c cs ih => simp [List.isPrefixOf, ih]

/-- Removing the first occurrence of `pat` from `pat ++ rest` leaves `rest`. -/
theorem jsReplaceFirst_append (pat rest : List Char) :
    jsReplaceFirst pat (pat ++ rest) = rest := by
  cases pat with
  | nil =>
    cases rest with
    | nil => rfl
    | cons c cs => simp [jsReplaceFirst, List.isPrefixOf]
  | cons p ps =>
    show jsReplaceFirst (p :: ps) (p :: (ps ++ rest)) = rest
    rw [jsReplaceFirst]
    rw [show p :: (ps ++ rest) = (p :: ps) ++ rest from rfl]
    rw [if_pos (isPrefixOf_append_self (p :: ps) rest), List.drop_left]

/-- On a non-empty all-digit string, `parseInt` returns its value. -/
theorem jsParseInt_digits (s : List Char) (hne : s ≠ [])
    (hdig : ∀ c ∈ s, c.isDigit) : jsParseInt s = some (digitsVal s) := by
  cases s with
  | nil => exact absurd rfl hne
  | cons c cs =>
    have hc : c.isDigit := hdig c (List.mem_cons_self c cs)
    have hcs : ¬(c = ' ') := by
      intro h; rw [h] at hc; simp [Char.isDigit] at hc
    have hminus : ¬(c = '-') := by
      intro h; rw [h] at hc; simp [Char.isDigit] at hc
    have hplus : ¬(c = '+') := by
      intro h; rw [h] at hc; simp [Char.isDigit] at hc
    have hdrop : (c :: cs).dropWhile (fun ch => ch = ' ') = c :: cs := by
      simp [List.dropWhile, hcs]
    have htake : (c :: cs).takeWhile (fun ch => ch.isDigit) = c :: cs := by
      rw [List.takeWhile_eq_self_iff]
      intro x hx; exact hdig x hx
    rw [jsParseInt, hdrop]
    simp only [hminus, hplus, if_false, parseDigitRun, htake]
    simp

/-- A left fold accumulating `+ f x` computes `a +` the mapped sum. -/
theorem foldl_add_eq_add_sum {M : Type} [AddCommMonoid M] {α : Type} (f : α → M)
    (l : List α) (a : M) :
    l.foldl (fun s x => s + f x) a = a + (l.map f).sum := by
  induction l generalizing a with
  | nil => simp
  | cons x xs ih => simp [ih, add_assoc]

/-! ## Claim C1 — empty-store sequencer seed -/

/-- Claim C1, counterexample: on the empty bill collection the sequencer
returns the literal `'BILL0000'`, not `'BILL0001'` as the claim states. -/
theorem c1_counterexample :
    getLastBillNumber [] = "BILL0000" ∧ getLastBillNumber [] ≠ "BILL0001" := by
  decide

/-- Claim C1, amended: on an empty bill collection `getLastBillNumber`
returns the fixed seed value `'BILL0000'` — the 4-letter prefix followed
by a 4-digit zero-padded sequence starting at 0. -/
theorem c1_empty_store_seed : getLastBillNumber [] = "BILL0000" := by decide

/-! ## Claim C5 — sequencer increments the last-inserted number -/

/-- Claim C5: for a non-empty bill collection whose last record (in
store insertion order) has bill number `'BILL'` followed by a digit
string `s`, the sequencer returns `'BILL'` followed by the value of `s`
plus one, zero-padded to 4 digits. -/
theorem c5_last_inserted_increment (bills : List Bill) (s : List Char)
    (h1 : bills ≠ [])
    (h2 : (bills.getLast h1).billNumber.data = "BILL".data ++ s)
    (h3 : s ≠ []) (h4 : ∀ c ∈ s, c.isDigit) :
    getLastBillNumber bills =
      ⟨"BILL".data ++ padStart 4 '0' (intToChars ((digitsVal s : ℤ) + 1))⟩ := by
  rw [getLastBillNumber, dif_neg h1]
  simp only [h2, jsReplaceFirst_append, jsParseInt_digits s h3 h4]
  simp

/-- Claim C5, witness: with last-inserted bill number `'BILL0007'` the
sequencer returns `'BILL0008'`. -/
theorem c5_witness :
    getLastBillNumber [sampleBillNumbered "BILL0007"] =
      ⟨"BILL".data ++ padStart 4 '0' (intToChars ((digitsVal "0007".data : ℤ) + 1))⟩ ∧
    getLastBillNumber [sampleBillNumbered "BILL0007"] = "BILL0008" :=
  ⟨c5_last_inserted_increment [sampleBillNumbered "BILL0007"] "0007".data
      (by decide) (by decide) (by decide) (by decide),
    by decide⟩

/-! ## Claim C7 — unparseable bill number in the sequencer -/

/-- Claim C7 (code divergence): with a last-inserted bill number that
does not parse as prefix + digits, the sequencer does not surface any
error — it silently returns the string `'BILL0NaN'`
(`parseInt` yields `NaN`, and `String(NaN + 1).padStart(4, '0')` is
`'0NaN'`). -/
theorem c7_corrupt_number_silent :
    getLastBillNumber [sampleBillNumbered "XYZ"] = "BILL0NaN" ∧
    (sampleBillNumbered "XYZ").billNumber = "XYZ" := by
  decide

/-! ## Claim C2 — cart invariant under all operation sequences -/

/-- `addToCart` preserves the cart invariant. -/
theorem cartInv_addToCart {cart : List BillItem} (h : cartInv cart)
    (item : MenuItem) : cartInv (addToCart cart item) := by
  unfold addToCart
  split
  · intro l hl
    rw [List.mem_map] at hl
    obtain ⟨x, hx, rfl⟩ := hl
    obtain ⟨hq, hs⟩ := h x hx
    by_cases hid : x.menuItemId = item.id
    · simp only [hid, if_true]
      refine ⟨by omega, ?_⟩
      push_cast
      ring
    · simp only [hid, if_false]
      exact ⟨hq, hs⟩
  · intro l hl
    rw [List.mem_append] at hl
    rcases hl with hl | hl
    · exact h l hl
    · simp only [List.mem_singleton] at hl
      subst hl
      exact ⟨by norm_num, by norm_num⟩

/-- `updateQuantity` preserves the cart invariant (a non-positive
resulting quantity leaves the line untouched). -/
theorem cartInv_updateQuantity {cart : List BillItem} (h : cartInv cart)
    (menuItemId : String) (delta : ℤ) :
    cartInv (updateQuantity cart menuItemId delta) := by
  intro l hl
  unfold updateQuantity at hl
  rw [List.mem_map] at hl
  obtain ⟨x, hx, rfl⟩ := hl
  obtain ⟨hq, hs⟩ := h x hx
  by_cases hid : x.menuItemId = menuItemId
  · simp only [hid, if_true]
    by_cases hz : x.quantity + delta ≤ 0
    · simp only [hz, if_true]
      exact ⟨hq, hs⟩
    · simp only [hz, if_false]
      refine ⟨by omega, ?_⟩
      push_cast
  · simp only [hid, if_false]
    exact ⟨hq, hs⟩

/-- `removeFromCart` preserves the cart invariant. -/
theorem cartInv_removeFromCart {cart : List BillItem} (h : cartInv cart)
    (menuItemId : String) : cartInv (removeFromCart cart menuItemId) := by
  intro l hl
  exact h l (List.mem_of_mem_filter hl)

/-- Every single cart operation preserves the cart invariant. -/
theorem cartInv_applyCartOp {cart : List BillItem} (h : cartInv cart)
    (op : CartOp) : cartInv (applyCartOp cart op) := by
  cases op with
  | add item => exact cartInv_addToCart h item
  | change menuItemId delta => exact cartInv_updateQuantity h menuItemId delta
  | remove menuItemId => exact cartInv_removeFromCart h menuItemId

/-- Any sequence of cart operations preserves the cart invariant. -/
theorem cartInv_runCartOps {cart : List BillItem} (h : cartInv cart)
    (ops : List CartOp) : cartInv (runCartOps cart ops) := by
  induction ops generalizing cart with
  | nil => exact h
  | cons op ops ih => exact ih (cartInv_applyCartOp h op)

/-- Claim C2: after any sequence of `addToCart` / `updateQuantity` /
`removeFromCart` operations starting from the empty cart, every
remaining line has quantity ≥ 1 and subtotal = quantity × captured
unit price. -/
theorem c2_cart_invariant (ops : List CartOp) (l : BillItem)
    (hl : l ∈ runCartOps [] ops) :
    1 ≤ l.quantity ∧ l.subtotal = (l.quantity : ℚ) * l.price :=
  cartInv_runCartOps (fun _ hmem => absurd hmem (List.not_mem_nil _)) ops l hl

/-- Claim C2, witness: adding one menu item to the empty cart yields a
line with quantity 1 and subtotal 1 × 60. -/
theorem c2_witness :
    sampleCartLine ∈ runCartOps [] [.add sampleMenuItem] ∧
    (1 ≤ sampleCartLine.quantity ∧
      sampleCartLine.subtotal = (sampleCartLine.quantity : ℚ) * sampleCartLine.price) :=
  ⟨by decide, c2_cart_invariant [.add sampleMenuItem] sampleCartLine (by decide)⟩

/-! ## Claim C8 — non-positive resulting quantity is a no-op -/

/-- Claim C8: when the delta would drive the matching line's quantity to
0 or below, `updateQuantity` leaves the cart exactly as it was — the
line keeps its quantity and subtotal and is not removed. -/
theorem c8_reject_nonpositive (cart : List BillItem) (menuItemId : String)
    (delta : ℤ)
    (h : ∀ l ∈ cart, l.menuItemId = menuItemId → l.quantity + delta ≤ 0) :
    updateQuantity cart menuItemId delta = cart := by
  induction cart with
  | nil => rfl
  | cons x xs ih =>
    have hx : x.menuItemId = menuItemId → x.quantity + delta ≤ 0 :=
      h x (List.mem_cons_self x xs)
    have hrest := ih (fun l hl hid => h l (List.mem_cons_of_mem x hl) hid)
    rw [updateQuantity, List.map_cons]
    rw [updateQuantity] at hrest
    rw [hrest]
    by_cases hid : x.menuItemId = menuItemId
    · simp only [hid, if_true, hx hid]
    · simp only [hid, if_false]

/-- Claim C8, witness: decrementing a quantity-2 line by 5 leaves the
cart unchanged. -/
theorem c8_witness :
    (∀ l ∈ [sampleCartLine2], l.menuItemId = "menu-5" → l.quantity + (-5) ≤ 0) ∧
    updateQuantity [sampleCartLine2] "menu-5" (-5) = [sampleCartLine2] :=
  ⟨by decide, c8_reject_nonpositive [sampleCartLine2] "menu-5" (-5) (by decide)⟩

/-! ## Claim C3 — totals calculator -/

/-- Claim C3, counterexample: with the first tax rate *configured as 0*,
the claimed formula `tax1 = subtotal × rate1 / 100` fails — the JS `||`
fallback treats the falsy rate 0 as unset, so on a 1000.00 subtotal the
code produces `cgst = 25`, not `1000 × 0 / 100 = 0`. -/
theorem c3_counterexample :
    zeroRateSettings.cgstRate = 0 ∧
    (calculateTotals [line1000] (some zeroRateSettings)).subtotal = 1000 ∧
    (calculateTotals [line1000] (some zeroRateSettings)).cgst = 25 ∧
    (calculateTotals [line1000] (some zeroRateSettings)).cgst ≠
      (calculateTotals [line1000] (some zeroRateSettings)).subtotal *
        zeroRateSettings.cgstRate / 100 := by
  norm_num [calculateTotals, effCgstRate, effSgstRate, zeroRateSettings,
    sampleSettings, line1000]

/-- Claim C3, amended: with each tax rate defaulting to 2.5 when the
settings record is absent *or the stored rate is 0* (JS `||` treats 0 as
unset), `calculateTotals` returns `subtotal = Σ line.subtotal`,
`tax = subtotal × rate / 100` for each configured non-zero rate, and
`total = subtotal + tax1 + tax2`; in particular for rates (2.5, 2.5) and
subtotal 1000.00 it returns taxes 25.00/25.00 and total 1050.00. -/
theorem c3_totals_formula :
    (∀ (cart : List BillItem) (s : AppSettings),
      s.cgstRate ≠ 0 → s.sgstRate ≠ 0 →
      calculateTotals cart (some s) =
        { subtotal := (cart.map BillItem.subtotal).sum
          cgst := (cart.map BillItem.subtotal).sum * s.cgstRate / 100
          sgst := (cart.map BillItem.subtotal).sum * s.sgstRate / 100
          total := (cart.map BillItem.subtotal).sum +
            (cart.map BillItem.subtotal).sum * s.cgstRate / 100 +
            (cart.map BillItem.subtotal).sum * s.sgstRate / 100 }) ∧
    (∀ cart : List BillItem,
      calculateTotals cart none =
        { subtotal := (cart.map BillItem.subtotal).sum
          cgst := (cart.map BillItem.subtotal).sum * 2.5 / 100
          sgst := (cart.map BillItem.subtotal).sum * 2.5 / 100
          total := (cart.map BillItem.subtotal).sum +
            (cart.map BillItem.subtotal).sum * 2.5 / 100 +
            (cart.map BillItem.subtotal).sum * 2.5 / 100 }) ∧
    calculateTotals [line1000] (some sampleSettings) =
      { subtotal := 1000, cgst := 25, sgst := 25, total := 1050 } := by
  refine ⟨?_, ?_, ?_⟩
  · intro cart s h1 h2
    simp only [calculateTotals, effCgstRate, effSgstRate, if_neg h1, if_neg h2,
      foldl_add_eq_add_sum, zero_add]
  · intro cart
    simp only [calculateTotals, effCgstRate, effSgstRate,
      foldl_add_eq_add_sum, zero_add]
  · norm_num [calculateTotals, effCgstRate, effSgstRate, sampleSettings, line1000]

/-- Claim C3, witness: the formula instantiated at the default settings
(rates 2.5/2.5) and a single 1000.00 line. -/
theorem c3_witness :
    sampleSettings.cgstRate ≠ 0 ∧
    calculateTotals [line1000] (some sampleSettings) =
      { subtotal := ([line1000].map BillItem.subtotal).sum
        cgst := ([line1000].map BillItem.subtotal).sum * sampleSettings.cgstRate / 100
        sgst := ([line1000].map BillItem.subtotal).sum * sampleSettings.sgstRate / 100
        total := ([line1000].map BillItem.subtotal).sum +
          ([line1000].map BillItem.subtotal).sum * sampleSettings.cgstRate / 100 +
          ([line1000].map BillItem.subtotal).sum * sampleSettings.sgstRate / 100 } :=
  ⟨by norm_num [sampleSettings],
    c3_totals_formula.1 [line1000] sampleSettings
      (by norm_num [sampleSettings]) (by norm_num [sampleSettings])⟩

/-! ## Claim C9 — `updateBill` is a full-record upsert -/

/-- When some stored record has the new record's key, replacing all
key-matches makes the new record the first key-match found. -/
theorem find?_map_of_any (xs : List Bill) (b : Bill)
    (h : xs.any (fun c => c.id = b.id) = true) :
    (xs.map (fun c => if c.id = b.id then b else c)).find?
      (fun c => c.id = b.id) = some b := by
  induction xs with
  | nil => simp at h
  | cons x xs ih =>
    by_cases hx : x.id = b.id
    · simp [hx]
    · have h' : xs.any (fun c => c.id = b.id) = true := by
        simpa [hx] using h
      simp [hx, ih h']

/-- When no stored record has the new record's key, the appended record
is the first key-match found. -/
theorem find?_append_single (xs : List Bill) (b : Bill)
    (h : xs.any (fun c => c.id = b.id) = false) :
    (xs ++ [b]).find? (fun c => c.id = b.id) = some b := by
  induction xs with
  | nil => simp
  | cons x xs ih =>
    have hx : ¬(x.id = b.id) := by
      intro hc
      simp [hc] at h
    have h' : xs.any (fun c => c.id = b.id) = false := by
      simpa [hx] using h
    simp [hx, ih h']

/-- Claim C9, counterexample: `updateBill` accepts a record that differs
from the stored one in the monetary field `total` (110 → 999) and
replaces the stored record wholesale, so the claim that monetary fields
survive every permitted `updateBill` call is false. -/
theorem c9_counterexample :
    storedBillA.id = storedBillB.id ∧
    getBill (updateBill [storedBillA] storedBillB) storedBillA.id = some storedBillB ∧
    storedBillA.total = 110 ∧ storedBillB.total = 999 ∧ ((110 : ℚ) ≠ 999) := by
  decide

/-- Claim C9, amended: `updateBill` is an unrestricted full-record
upsert (IndexedDB `put`): after `updateBill(b)` the record stored under
`b.id` is exactly `b` in every field, monetary fields included — no
restriction to non-financial metadata is enforced by the code. -/
theorem c9_updateBill_upsert (bills : List Bill) (b : Bill) :
    getBill (updateBill bills b) b.id = some b := by
  rw [updateBill, getBill]
  cases h : bills.any (fun c => c.id = b.id) with
  | true =>
    rw [if_pos rfl]
    exact find?_map_of_any bills b h
  | false =>
    rw [if_neg (by simp)]
    exact find?_append_single bills b h

/-! ## Claim C10 — report summary reducers -/

/-- Claim C10: the summary computes total sales as the sum of bill
totals, total items as the sum of per-bill line-entry counts (not
summed quantities), and the average bill value as sales divided by the
bill count with 0 for an empty count; on the empty list everything
is 0. -/
theorem c10_summary :
    (∀ bills : List Bill,
      totalSales bills = (bills.map Bill.total).sum ∧
      totalItems bills = (bills.map (fun b => b.items.length)).sum ∧
      avgBillValue bills =
        if bills.length = 0 then 0 else totalSales bills / bills.length) ∧
    (totalSales [] = 0 ∧ totalItems [] = 0 ∧ avgBillValue [] = 0) := by
  constructor
  · intro bills
    refine ⟨?_, ?_, ?_⟩
    · rw [totalSales, foldl_add_eq_add_sum Bill.total bills 0, zero_add]
    · rw [totalItems, foldl_add_eq_add_sum (fun b => b.items.length) bills 0, zero_add]
    · rw [avgBillValue]
      rcases Nat.eq_zero_or_pos bills.length with h | h
      · simp [h]
      · rw [if_pos h, if_neg (Nat.pos_iff_ne_zero.mp h)]
  · exact ⟨rfl, rfl, by simp [avgBillValue]⟩

/-! ## Claim C4 — finalization preconditions -/

/-- Claim C4: on an empty cart `handleSaveBill` stops with the
`emptyCart` outcome, and on a non-empty cart with an unresolved user or
settings it stops with the distinct `missingContext` outcome; in both
cases the bill store is returned unchanged — `createBill` is never
reached. -/
theorem c4_save_preconditions (bills : List Bill) (cart : List BillItem)
    (user : Option User) (settings : Option AppSettings)
    (pm : PaymentMethod) (custName custPhone nowId nowIso : String) :
    (cart = [] →
      handleSaveBill bills cart user settings pm custName custPhone nowId nowIso =
        (.emptyCart, bills)) ∧
    (cart ≠ [] → (user = none ∨ settings = none) →
      handleSaveBill bills cart user settings pm custName custPhone nowId nowIso =
        (.missingContext, bills)) := by
  constructor
  · intro hc
    subst hc
    rfl
  · intro hc hus
    rw [handleSaveBill.eq_def, if_neg hc]
    rcases hus with h | h
    · subst h
      cases settings <;> rfl
    · subst h
      cases user <;> rfl

/-- Claim C4, witness: saving an empty cart on an empty store fails with
`emptyCart` and leaves the store empty. -/
theorem c4_witness :
    handleSaveBill [] [] (some sampleUser) (some sampleSettings) .cash "" ""
        "bill-1" "2024-03-15T10:00:00.000Z" = (.emptyCart, []) :=
  (c4_save_preconditions [] [] (some sampleUser) (some sampleSettings) .cash ""
    "" "bill-1" "2024-03-15T10:00:00.000Z").1 rfl

/-! ## Claim C6 — monetary invariants of every finalized bill -/

/-- The grand total computed by `calculateTotals` is exactly the sum of
its own subtotal and two tax components. -/
theorem calculateTotals_total_eq (cart : List BillItem) (s : Option AppSettings) :
    (calculateTotals cart s).total =
      (calculateTotals cart s).subtotal + (calculateTotals cart s).cgst +
        (calculateTotals cart s).sgst := rfl

/-- The subtotal computed by `calculateTotals` is the sum of the line
subtotals. -/
theorem calculateTotals_subtotal_eq (cart : List BillItem) (s : Option AppSettings) :
    (calculateTotals cart s).subtotal = (cart.map BillItem.subtotal).sum := by
  show cart.foldl (fun sum item => sum + item.subtotal) 0 = (cart.map BillItem.subtotal).sum
  rw [foldl_add_eq_add_sum, zero_add]

/-- Claim C6: every bill record a successful `handleSaveBill` produces
satisfies `total = subtotal + cgst + sgst` (exactly, hence to any
display precision) and `subtotal = Σ` of its line subtotals. -/
theorem c6_bill_invariants (bills : List Bill) (cart : List BillItem)
    (user : Option User) (settings : Option AppSettings)
    (pm : PaymentMethod) (custName custPhone nowId nowIso : String) (bill : Bill)
    (h : (handleSaveBill bills cart user settings pm custName custPhone nowId
      nowIso).1 = .saved bill) :
    bill.total = bill.subtotal + bill.cgst + bill.sgst ∧
    bill.subtotal = (bill.items.map BillItem.subtotal).sum := by
  rw [handleSaveBill.eq_def] at h
  split at h
  · simp at h
  · split at h
    · split at h
      · simp only [SaveOutcome.saved.injEq] at h
        subst h
        rename_i u st x bills2 heq
        exact ⟨calculateTotals_total_eq cart (some st),
          calculateTotals_subtotal_eq cart (some st)⟩
      · simp at h
    · simp at h

/-- Claim C6, witness: the concrete bill saved from a single 1000.00
line with rates 2.5/2.5 has total 1050 = 1000 + 25 + 25 and subtotal
equal to its line sum. -/
theorem c6_witness :
    (handleSaveBill [] [line1000] (some sampleUser) (some sampleSettings) .cash
        "" "" "bill-1" "2024-03-15T10:00:00.000Z").1 = .saved savedDemoBill ∧
    (savedDemoBill.total = savedDemoBill.subtotal + savedDemoBill.cgst +
        savedDemoBill.sgst ∧
      savedDemoBill.subtotal = (savedDemoBill.items.map BillItem.subtotal).sum) := by
  have hsave : (handleSaveBill [] [line1000] (some sampleUser)
      (some sampleSettings) .cash "" "" "bill-1"
      "2024-03-15T10:00:00.000Z").1 = .saved savedDemoBill := by
    norm_num [handleSaveBill, mkSavedBill, getLastBillNumber, calculateTotals,
      effCgstRate, effSgstRate, createBill, sampleSettings, sampleUser,
      line1000, savedDemoBill]
  exact ⟨hsave, c6_bill_invariants _ _ _ _ _ _ _ _ _ _ hsave⟩

end PosPal
